import Mathlib

/-!
Shallow embedding of the resilient request executor `apiFetch`
(src/app.js, lines 228-318) of the universal-login log client.

The network is modelled as a script: a function from the attempt index to
the outcome the transport produces for that attempt (timer abort, network
failure, or an HTTP response together with what its body decodes to).
`apiFetch` is then a pure function of the script, returning the final
outcome plus an execution trace (number of attempts, backoff delays
performed, and the fate of each per-attempt timeout timer).
-/

namespace LogClient

/-- JSON values as delivered by the transport body decoder. -/
inductive Json where
  | null : Json
  | bool (b : Bool) : Json
  | num (n : Int) : Json
  | str (s : String) : Json
  | arr (elems : List Json) : Json
  | obj (fields : List (String × Json)) : Json

/-- The value held in the `data` variable of `apiFetch` after body parsing:
a structured JSON value, a text string, a blob payload, an arrayBuffer
payload, or the JS `null` produced when neither extraction is available. -/
inductive ParsedData where
  | json (j : Json) : ParsedData
  | text (s : String) : ParsedData
  | blob (bytes : List Nat) : ParsedData
  | buffer (bytes : List Nat) : ParsedData
  | jsNull : ParsedData

/-- JS truthiness of a JSON value. -/
def Json.truthy : Json → Bool
  | .null => false
  | .bool b => b
  | .num n => n != 0
  | .str s => !s.isEmpty
  | .arr _ => true
  | .obj _ => true

/-- JS truthiness of a parsed body value (blob and buffer objects are
always truthy, the JS null from the binary fallback is falsy). -/
def ParsedData.truthy : ParsedData → Bool
  | .json j => j.truthy
  | .text s => !s.isEmpty
  | .blob _ => true
  | .buffer _ => true
  | .jsNull => false

/-- JS property read `j[key]` on a JSON value: only objects have own
fields; everything else yields `undefined` (`Option.none`). Objects are
assumed well-formed (no duplicate keys), as produced by `JSON.parse`. -/
def Json.getField : Json → String → Option Json
  | .obj fields, key => (fields.find? (fun p => p.1 == key)).map (fun p => p.2)
  | _, _ => Option.none

/-- JS optional-chained property read `data?.[key]`. -/
def ParsedData.getField : ParsedData → String → Option Json
  | .json j, key => j.getField key
  | _, _ => Option.none

/-- A JS value that can stand as the error message chosen by the
`data?.message || data?.error || data || res.statusText || ...` chain:
`undefined`, a JSON field value, the whole parsed body, or a string. -/
inductive MsgVal where
  | missing : MsgVal
  | fromJson (j : Json) : MsgVal
  | fromData (d : ParsedData) : MsgVal
  | fromText (s : String) : MsgVal

/-- JS truthiness of a message candidate. -/
def MsgVal.truthy : MsgVal → Bool
  | .missing => false
  | .fromJson j => j.truthy
  | .fromData d => d.truthy
  | .fromText s => !s.isEmpty

/-- The JS `||` operator on message candidates. -/
def jsOr (a b : MsgVal) : MsgVal := if a.truthy then a else b

/-- The candidate `data?.[key]` of the message chain. -/
def msgOfField (d : ParsedData) (key : String) : MsgVal :=
  match d.getField key with
  | some v => .fromJson v
  | Option.none => .missing

/-- The error message selected for a non-ok response (src/app.js 282-286):
`data?.message || data?.error || data || res.statusText || "HTTP <code>"`. -/
def errorMessage (data : ParsedData) (statusText : String) (status : Nat) : MsgVal :=
  jsOr (msgOfField data "message")
    (jsOr (msgOfField data "error")
      (jsOr (.fromData data)
        (jsOr (.fromText statusText)
          (.fromText ("HTTP " ++ toString status)))))

/-- A thrown JS `Error` value, with the extra fields `apiFetch` attaches to
HTTP errors (src/app.js 288-292). `status` is `Option.none` when the JS
object has no `status` property (plain errors, abort errors, network
failures, parse failures). -/
structure JsError where
  name : String
  message : MsgVal
  status : Option Nat
  statusText : Option String
  data : Option ParsedData
  url : Option String

/-- The `AbortError` the fetch promise rejects with when the timeout timer
fires `controller.abort()` (src/app.js 252-253). -/
def abortError : JsError :=
  { name := "AbortError", message := .fromText "The operation was aborted",
    status := Option.none, statusText := Option.none,
    data := Option.none, url := Option.none }

/-- A network-level failure of `fetch` (connection refused, DNS, ...):
a `TypeError` with no `status` property. -/
def networkFailError (m : String) : JsError :=
  { name := "TypeError", message := .fromText m,
    status := Option.none, statusText := Option.none,
    data := Option.none, url := Option.none }

/-- The wrapper thrown when body decoding fails (src/app.js 276-278):
a plain `Error` whose message wraps the parse error message; note it
carries no `status` property. -/
def parseFailError (m : String) : JsError :=
  { name := "Error", message := .fromText ("Failed to parse response: " ++ m),
    status := Option.none, statusText := Option.none,
    data := Option.none, url := Option.none }

/-- The error thrown on timeout (src/app.js 303-305): a fresh `Error`
naming the configured timeout value. -/
def timeoutError (t : Nat) : JsError :=
  { name := "Error",
    message := .fromText ("Request timeout after " ++ toString t ++ "ms"),
    status := Option.none, statusText := Option.none,
    data := Option.none, url := Option.none }

/-- An HTTP response as seen by one attempt, together with what the body
decoders would deliver for it: `jsonBody = some j` means `res.json()`
resolves with `j`, `jsonBody = none` that it rejects with an error whose
message is `parseErrMsg`; `textBody` is what `res.text()` resolves with;
`blobBody`/`bufferBody` are the payloads of `res.blob?.()` and
`res.arrayBuffer?.()` when those methods exist. -/
structure Response where
  ok : Bool
  status : Nat
  statusText : String
  contentType : String
  jsonBody : Option Json
  textBody : String
  blobBody : Option (List Nat)
  bufferBody : Option (List Nat)
  parseErrMsg : String

/-- Transport outcome of one attempt: the fetch promise rejects with an
`AbortError` (timer fired), rejects with a network-level failure, or
resolves with a response. -/
inductive FetchOutcome where
  | abort : FetchOutcome
  | networkError (message : String) : FetchOutcome
  | response (r : Response) : FetchOutcome

/-- Leading-characters match: `sub` is an initial segment of `l`. -/
def leadMatches : List Char → List Char → Bool
  | [], _ => true
  | _ :: _, [] => false
  | a :: as, b :: bs => (a == b) && leadMatches as bs

/-- Substring occurrence on character lists. -/
def hasSub : List Char → List Char → Bool
  | [], sub => sub.isEmpty
  | c :: t, sub => leadMatches sub (c :: t) || hasSub t sub

/-- JS `s.includes(sub)`. -/
def jsIncludes (s sub : String) : Bool := hasSub s.data sub.data

/-- Body decoding by declared content type (src/app.js 263-275): a JSON
content type decodes the body as JSON (possibly failing with the original
parse error message), a `text/` content type yields the text, anything
else tries blob-style then buffer-style extraction, else JS null. -/
def parseBody (r : Response) : Except String ParsedData :=
  if jsIncludes r.contentType "application/json" then
    match r.jsonBody with
    | some j => .ok (.json j)
    | Option.none => .error r.parseErrMsg
  else if jsIncludes r.contentType "text/" then
    .ok (.text r.textBody)
  else
    match r.blobBody with
    | some b => .ok (.blob b)
    | Option.none =>
      match r.bufferBody with
      | some b => .ok (.buffer b)
      | Option.none => .ok .jsNull

/-- The HTTP error constructed for a non-ok response (src/app.js 281-294). -/
def httpError (url : String) (r : Response) (d : ParsedData) : JsError :=
  { name := "Error",
    message := errorMessage d r.statusText r.status,
    status := some r.status,
    statusText := some r.statusText,
    data := some d,
    url := some url }

/-- Fate of the per-attempt timeout timer: cleared by `clearTimeout`
(src/app.js 261), fired (it caused the abort), or left armed because the
fetch promise rejected before `clearTimeout` was reached. -/
inductive TimerFate where
  | cleared : TimerFate
  | fired : TimerFate
  | leaked : TimerFate

/-- Result of the body of one attempt: the parsed data returned at
src/app.js 297, or the error that attempt throws. -/
inductive AttemptResult where
  | success (d : ParsedData) : AttemptResult
  | failure (e : JsError) : AttemptResult

/-- One attempt together with the fate of its timer. -/
structure AttemptExec where
  result : AttemptResult
  fate : TimerFate

/-- One attempt of the try block (src/app.js 250-297): on abort the timer
has fired; on a network-level rejection `clearTimeout` is never reached
(the timer stays armed); on a response the timer is cleared first, then
the body is decoded (a decode failure throws the wrapping parse error),
then a non-ok status throws the HTTP error, else the data is returned. -/
def runAttempt (url : String) : FetchOutcome → AttemptExec
  | .abort => { result := .failure abortError, fate := .fired }
  | .networkError m => { result := .failure (networkFailError m), fate := .leaked }
  | .response r =>
      { result :=
          match parseBody r with
          | .error m => .failure (parseFailError m)
          | .ok d => if r.ok then .success d else .failure (httpError url r d),
        fate := .cleared }

/-- The JS test `error.status >= 400 && error.status < 500`
(src/app.js 306); comparisons against an absent property are false. -/
def isClientError (e : JsError) : Bool :=
  match e.status with
  | some s => decide (400 ≤ s) && decide (s < 500)
  | Option.none => false

/-- A JS thrown value: an Error object, or the `undefined` that
`throw lastError` raises when the loop body never ran (src/app.js 317). -/
inductive Thrown where
  | error (e : JsError) : Thrown
  | undefined : Thrown

/-- The value of `throw lastError` for the current `lastError` binding. -/
def thrownOf : Option JsError → Thrown
  | some e => .error e
  | Option.none => .undefined

/-- Trace of one logical call: its outcome, how many network attempts were
made, the backoff delays performed (in order, in milliseconds), and the
fate of each attempt's timer (in attempt order). -/
structure ExecResult where
  outcome : Except Thrown ParsedData
  attempts : Nat
  delays : List Nat
  timers : List TimerFate

/-- The retry loop of `apiFetch` (src/app.js 249-317), driven by the
remaining iteration count `fuel` (the JS loop runs while
`attempt <= retries`, so it has `retries - attempt + 1` iterations left):
on success return the data; on an `AbortError` throw the timeout error;
on a 4xx error rethrow it; otherwise record the error as `lastError`,
wait `retryDelay * (attempt + 1)` when `attempt < retries` (that is, when
another iteration remains), and continue; when the loop exits, throw
`lastError`. -/
def loopGo (url : String) (script : Nat → FetchOutcome) (timeout retryDelay : Nat) :
    Nat → Nat → Option JsError → ExecResult
  | 0, _, lastError =>
      { outcome := .error (thrownOf lastError), attempts := 0, delays := [], timers := [] }
  | fuel + 1, attempt, _ =>
      match (runAttempt url (script attempt)).result with
      | .success d =>
          { outcome := .ok d, attempts := 1, delays := [],
            timers := [(runAttempt url (script attempt)).fate] }
      | .failure e =>
          if e.name = "AbortError" then
            { outcome := .error (.error (timeoutError timeout)), attempts := 1, delays := [],
              timers := [(runAttempt url (script attempt)).fate] }
          else if isClientError e then
            { outcome := .error (.error e), attempts := 1, delays := [],
              timers := [(runAttempt url (script attempt)).fate] }
          else
            let rest := loopGo url script timeout retryDelay fuel (attempt + 1) (some e)
            { outcome := rest.outcome,
              attempts := rest.attempts + 1,
              delays := (if 0 < fuel then [retryDelay * (attempt + 1)] else []) ++ rest.delays,
              timers := (runAttempt url (script attempt)).fate :: rest.timers }

/-- Header preparation (src/app.js 239-243): spread the caller headers,
then forcibly set `X-API-KEY`, then set `Content-Type` to the caller value
when that is truthy, else to the default `application/json`. The result is
the lookup function of the merged header object. -/
def mergeHeaders (callerHeaders : String → Option String) (apiKey : String) :
    String → Option String :=
  fun key =>
    if key = "X-API-KEY" then some apiKey
    else if key = "Content-Type" then
      match callerHeaders "Content-Type" with
      | some v => if v = "" then some "application/json" else some v
      | Option.none => some "application/json"
    else callerHeaders key

/-- The API base prepended to every path (src/app.js 2, 245). -/
def apiBase : String := "/api"

/-- Result of one logical `apiFetch` call: the headers object sent with
every attempt (it is built once, before the loop, and reused by each
`fetch` call), plus the execution trace. -/
structure CallResult where
  headers : String → Option String
  exec : ExecResult

/-- The executor `apiFetch(path, opts)` (src/app.js 228-318). The
configuration fields `timeout`, `retries`, `retryDelay` are the
destructured options (source defaults 30000, 0, 1000); `retries` is an
`Int` because the JS number is not constrained to be non-negative. The
`includeCredentials` flag and remaining fetch options only parameterize
the transport and are absorbed into the script oracle. -/
def apiFetch (path : String) (headers : String → Option String) (apiKey : String)
    (timeout : Nat) (retries : Int) (retryDelay : Nat)
    (script : Nat → FetchOutcome) : CallResult :=
  { headers := mergeHeaders headers apiKey,
    exec := loopGo (apiBase ++ path) script timeout retryDelay (retries + 1).toNat 0 Option.none }


/-! Concrete fixtures used by the witness and counterexample theorems. -/

/-- Caller options with no headers object. -/
def hdrNone : String → Option String := fun _ => Option.none

/-- Caller headers supplying a content type and a custom header. -/
def hdrCustom : String → Option String := fun k =>
  if k = "Content-Type" then some "text/plain"
  else if k = "X-Custom" then some "1"
  else Option.none

/-- A successful JSON response. -/
def okJson : Response :=
  { ok := true, status := 200, statusText := "OK", contentType := "application/json",
    jsonBody := some (.obj [("ok", .bool true)]), textBody := "",
    blobBody := Option.none, bufferBody := Option.none, parseErrMsg := "" }

/-- A status-500 JSON error response. -/
def resp500 : Response :=
  { ok := false, status := 500, statusText := "Internal Server Error",
    contentType := "application/json",
    jsonBody := some (.obj [("error", .str "boom")]), textBody := "",
    blobBody := Option.none, bufferBody := Option.none, parseErrMsg := "" }

/-- A status-404 JSON error response. -/
def resp404 : Response :=
  { ok := false, status := 404, statusText := "Not Found",
    contentType := "application/json",
    jsonBody := some (.obj [("message", .str "missing")]), textBody := "",
    blobBody := Option.none, bufferBody := Option.none, parseErrMsg := "" }

/-- A status-422 JSON error response with body message field. -/
def resp422 : Response :=
  { ok := false, status := 422, statusText := "Unprocessable Entity",
    contentType := "application/json",
    jsonBody := some (.obj [("message", .str "bad input")]), textBody := "",
    blobBody := Option.none, bufferBody := Option.none, parseErrMsg := "" }

/-- A successful response declaring JSON whose body fails to decode. -/
def respBadParse : Response :=
  { ok := true, status := 200, statusText := "OK", contentType := "application/json",
    jsonBody := Option.none, textBody := "",
    blobBody := Option.none, bufferBody := Option.none,
    parseErrMsg := "Unexpected end of JSON input" }

/-- A successful CSV response. -/
def respCsv : Response :=
  { ok := true, status := 200, statusText := "OK", contentType := "text/csv",
    jsonBody := Option.none, textBody := "a,b", blobBody := Option.none,
    bufferBody := Option.none, parseErrMsg := "" }

/-- A successful binary response with blob extraction available. -/
def respBin : Response :=
  { ok := true, status := 200, statusText := "OK",
    contentType := "application/octet-stream",
    jsonBody := Option.none, textBody := "", blobBody := some [1, 2, 3],
    bufferBody := Option.none, parseErrMsg := "" }

/-- Script: two server errors, then success. -/
def scriptA : Nat → FetchOutcome := fun i =>
  if i < 2 then .response resp500 else .response okJson

/-- Script: always the 404 response. -/
def script404 : Nat → FetchOutcome := fun _ => .response resp404

/-- Script: always the 422 response. -/
def script422 : Nat → FetchOutcome := fun _ => .response resp422

/-- Script: every attempt is aborted by its timer. -/
def scriptAbort : Nat → FetchOutcome := fun _ => .abort

/-- Script: a response whose body fails to decode, then success. -/
def scriptC4 : Nat → FetchOutcome := fun i =>
  if i = 0 then .response respBadParse else .response okJson

/-- Script: always the successful JSON response. -/
def scriptOk : Nat → FetchOutcome := fun _ => .response okJson

/-- Script: always the CSV response. -/
def scriptCsv : Nat → FetchOutcome := fun _ => .response respCsv

/-- The error one attempt throws for a non-ok response: the wrapping parse
failure when the body does not decode, else the constructed HTTP error. -/
def attemptError (url : String) (r : Response) : JsError :=
  match parseBody r with
  | .error m => parseFailError m
  | .ok d => httpError url r d

end LogClient

namespace LogClient

/-! Helper lemmas about the retry loop. -/

theorem loopGo_le_irrel (u : String) (s : Nat → FetchOutcome) (t d : Nat)
    (fuel a : Nat) (h : 1 ≤ fuel) (le₁ le₂ : Option JsError) :
    loopGo u s t d fuel a le₁ = loopGo u s t d fuel a le₂ := by
  cases fuel with
  | zero => omega
  | succ f => rfl

theorem loopGo_attempts_le (u : String) (s : Nat → FetchOutcome) (t d : Nat) :
    ∀ (fuel a : Nat) (le : Option JsError),
      (loopGo u s t d fuel a le).attempts ≤ fuel := by
  intro fuel
  induction fuel with
  | zero => intro a le; simp [loopGo]
  | succ f ih =>
      intro a le
      simp only [loopGo]
      cases h : (runAttempt u (s a)).result with
      | success dd => simp
      | failure e =>
          by_cases h1 : e.name = "AbortError"
          · simp [h1]
          · by_cases h2 : isClientError e
            · simp [h1, h2]
            · simp only [h1, h2]
              simp
              have := ih (a + 1) (some e)
              omega

theorem loopGo_success_step (u : String) (s : Nat → FetchOutcome) (t d : Nat)
    (fuel a : Nat) (le : Option JsError) (dd : ParsedData)
    (h : (runAttempt u (s a)).result = .success dd) (hf : 1 ≤ fuel) :
    loopGo u s t d fuel a le =
      { outcome := .ok dd, attempts := 1, delays := [],
        timers := [(runAttempt u (s a)).fate] } := by
  obtain ⟨f, rfl⟩ : ∃ f, fuel = f + 1 := ⟨fuel - 1, by omega⟩
  simp only [loopGo, h]

theorem loopGo_abort_step (u : String) (s : Nat → FetchOutcome) (t d : Nat)
    (fuel a : Nat) (le : Option JsError) (e : JsError)
    (h : (runAttempt u (s a)).result = .failure e) (hn : e.name = "AbortError")
    (hf : 1 ≤ fuel) :
    loopGo u s t d fuel a le =
      { outcome := .error (.error (timeoutError t)), attempts := 1, delays := [],
        timers := [(runAttempt u (s a)).fate] } := by
  obtain ⟨f, rfl⟩ : ∃ f, fuel = f + 1 := ⟨fuel - 1, by omega⟩
  simp only [loopGo, h]
  rw [if_pos hn]

theorem loopGo_client_step (u : String) (s : Nat → FetchOutcome) (t d : Nat)
    (fuel a : Nat) (le : Option JsError) (e : JsError)
    (h : (runAttempt u (s a)).result = .failure e) (hn : e.name ≠ "AbortError")
    (hc : isClientError e = true) (hf : 1 ≤ fuel) :
    loopGo u s t d fuel a le =
      { outcome := .error (.error e), attempts := 1, delays := [],
        timers := [(runAttempt u (s a)).fate] } := by
  obtain ⟨f, rfl⟩ : ∃ f, fuel = f + 1 := ⟨fuel - 1, by omega⟩
  simp only [loopGo, h]
  rw [if_neg hn, if_pos hc]

theorem loopGo_retry_step (u : String) (s : Nat → FetchOutcome) (t d : Nat)
    (f a : Nat) (le : Option JsError) (e : JsError)
    (h : (runAttempt u (s a)).result = .failure e) (hn : e.name ≠ "AbortError")
    (hc : isClientError e = false) :
    loopGo u s t d (f + 1) a le =
      { outcome := (loopGo u s t d f (a + 1) (some e)).outcome,
        attempts := (loopGo u s t d f (a + 1) (some e)).attempts + 1,
        delays := (if 0 < f then [d * (a + 1)] else [])
          ++ (loopGo u s t d f (a + 1) (some e)).delays,
        timers := (runAttempt u (s a)).fate
          :: (loopGo u s t d f (a + 1) (some e)).timers } := by
  simp only [loopGo, h]
  rw [if_neg hn, if_neg (by simp [hc])]

theorem loopGo_attempts_pos (u : String) (s : Nat → FetchOutcome) (t d : Nat)
    (fuel a : Nat) (le : Option JsError) (hf : 1 ≤ fuel) :
    1 ≤ (loopGo u s t d fuel a le).attempts := by
  obtain ⟨f, rfl⟩ : ∃ f, fuel = f + 1 := ⟨fuel - 1, by omega⟩
  cases h : (runAttempt u (s a)).result with
  | success dd => rw [loopGo_success_step u s t d (f + 1) a le dd h (by omega)]
  | failure e =>
      by_cases hn : e.name = "AbortError"
      · rw [loopGo_abort_step u s t d (f + 1) a le e h hn (by omega)]
      · by_cases hc : isClientError e
        · rw [loopGo_client_step u s t d (f + 1) a le e h hn hc (by omega)]
        · rw [loopGo_retry_step u s t d f a le e h hn (by simp [hc])]
          simp

theorem loopGo_retryable_run (u : String) (s : Nat → FetchOutcome) (t d : Nat) :
    ∀ (k : Nat) (es : Nat → JsError) (fuel a : Nat) (le : Option JsError),
      k + 1 ≤ fuel →
      (∀ i, i < k → (runAttempt u (s (a + i))).result = .failure (es i) ∧
          (es i).name ≠ "AbortError" ∧ isClientError (es i) = false) →
      (loopGo u s t d fuel a le).outcome
          = (loopGo u s t d (fuel - k) (a + k) Option.none).outcome ∧
      (loopGo u s t d fuel a le).attempts
          = k + (loopGo u s t d (fuel - k) (a + k) Option.none).attempts ∧
      (loopGo u s t d fuel a le).delays
          = (List.range k).map (fun i => d * (a + i + 1))
            ++ (loopGo u s t d (fuel - k) (a + k) Option.none).delays := by
  intro k
  induction k with
  | zero =>
      intro es fuel a le hf _
      rw [loopGo_le_irrel u s t d fuel a (by omega) le Option.none]
      simp
  | succ k ih =>
      intro es fuel a le hf hfail
      obtain ⟨f, rfl⟩ : ∃ f, fuel = f + 1 := ⟨fuel - 1, by omega⟩
      have h0 := hfail 0 (by omega)
      rw [Nat.add_zero] at h0
      have hpos : 0 < f := by omega
      have hunfold : loopGo u s t d (f + 1) a le =
          { outcome := (loopGo u s t d f (a + 1) (some (es 0))).outcome,
            attempts := (loopGo u s t d f (a + 1) (some (es 0))).attempts + 1,
            delays := d * (a + 1) :: (loopGo u s t d f (a + 1) (some (es 0))).delays,
            timers := (runAttempt u (s a)).fate
              :: (loopGo u s t d f (a + 1) (some (es 0))).timers } := by
        simp only [loopGo, h0.1]
        rw [if_neg h0.2.1, if_neg (by simp [h0.2.2])]
        simp [hpos]
      have hstep := ih (fun i => es (i + 1)) f (a + 1) (some (es 0)) (by omega)
        (fun i hi => by
          rw [show a + 1 + i = a + (i + 1) by omega]
          exact hfail (i + 1) (by omega))
      have hfk : f - k = f + 1 - (k + 1) := by omega
      have hak : a + 1 + k = a + (k + 1) := by omega
      rw [hfk, hak] at hstep
      rw [hunfold]
      refine ⟨hstep.1, ?_, ?_⟩
      · simp only [hstep.2.1]
        omega
      · simp only [hstep.2.2]
        simp only [List.range_succ_eq_map, List.map_cons, List.map_map, List.cons_append,
          Nat.add_zero]
        congr 1
        congr 1
        apply List.map_congr_left
        intro i _
        simp only [Function.comp_apply, Nat.succ_eq_add_one]
        ring

theorem loopGo_timers (u : String) (s : Nat → FetchOutcome) (t d : Nat) :
    ∀ (fuel a : Nat) (le : Option JsError),
      (loopGo u s t d fuel a le).timers.length = (loopGo u s t d fuel a le).attempts ∧
      ∀ i, i < (loopGo u s t d fuel a le).attempts →
        (loopGo u s t d fuel a le).timers.get? i = some ((runAttempt u (s (a + i))).fate) := by
  intro fuel
  induction fuel with
  | zero => intro a le; simp [loopGo]
  | succ f ih =>
      intro a le
      cases h : (runAttempt u (s a)).result with
      | success dd =>
          rw [loopGo_success_step u s t d (f + 1) a le dd h (by omega)]
          refine ⟨rfl, ?_⟩
          intro i hi
          simp only at hi
          interval_cases i
          simp
      | failure e =>
          by_cases hn : e.name = "AbortError"
          · rw [loopGo_abort_step u s t d (f + 1) a le e h hn (by omega)]
            refine ⟨rfl, ?_⟩
            intro i hi
            simp only at hi
            interval_cases i
            simp
          · by_cases hc : isClientError e
            · rw [loopGo_client_step u s t d (f + 1) a le e h hn hc (by omega)]
              refine ⟨rfl, ?_⟩
              intro i hi
              simp only at hi
              interval_cases i
              simp
            · rw [loopGo_retry_step u s t d f a le e h hn (by simp [hc])]
              have hrec := ih (a + 1) (some e)
              refine ⟨by simp [hrec.1], ?_⟩
              intro i hi
              simp only at hi ⊢
              cases i with
              | zero => simp
              | succ j =>
                  simp only [List.get?_cons_succ]
                  rw [show a + (j + 1) = a + 1 + j by omega]
                  exact hrec.2 j (by omega)

theorem runAttempt_response_fate (url : String) (r : Response) :
    (runAttempt url (.response r)).fate = .cleared := rfl

/-- The error one attempt throws for a non-ok response: the wrapping parse
failure when the body does not decode, else the constructed HTTP error. -/

theorem runAttempt_response_not_ok (url : String) (r : Response) (h : r.ok = false) :
    (runAttempt url (.response r)).result = .failure (attemptError url r) := by
  simp only [runAttempt, attemptError]
  cases parseBody r with
  | error m => rfl
  | ok d => simp [h]

theorem attemptError_retryable (url : String) (r : Response) (h5 : 500 ≤ r.status) :
    (attemptError url r).name ≠ "AbortError" ∧ isClientError (attemptError url r) = false := by
  unfold attemptError
  cases parseBody r with
  | error m =>
      refine ⟨by simp [parseFailError], ?_⟩
      simp [parseFailError, isClientError]
  | ok d =>
      refine ⟨by simp [httpError], ?_⟩
      simp only [httpError, isClientError]
      simp
      omega


/-! Claim theorems. -/

/-- Claim C1: attempts are indexed 0 through `retries` inclusive, so at most
`retries + 1` attempts occur; with `retries = 0` exactly one attempt is made
regardless of outcome; and for a script of N status-500 responses followed by
a success, with `retries >= N`, the success payload is returned after exactly
N+1 attempts with backoff delays `retryDelay*1, ..., retryDelay*N`. -/
theorem apiFetch_retry_schedule (path : String) (hs : String → Option String)
    (key : String) (timeout retryDelay n : Nat) (script : Nat → FetchOutcome) :
    (apiFetch path hs key timeout (n : Int) retryDelay script).exec.attempts ≤ n + 1
    ∧ (apiFetch path hs key timeout (0 : Int) retryDelay script).exec.attempts = 1
    ∧ (∀ (N : Nat) (rs : Nat → Response) (rok : Response) (dd : ParsedData),
        (∀ i, i < N → script i = .response (rs i) ∧ (rs i).ok = false ∧ (rs i).status = 500) →
        script N = .response rok → rok.ok = true → parseBody rok = .ok dd →
        N ≤ n →
        (apiFetch path hs key timeout (n : Int) retryDelay script).exec.outcome = .ok dd
        ∧ (apiFetch path hs key timeout (n : Int) retryDelay script).exec.attempts = N + 1
        ∧ (apiFetch path hs key timeout (n : Int) retryDelay script).exec.delays
            = (List.range N).map (fun i => retryDelay * (i + 1))) := by
  have hfuel : ((n : Int) + 1).toNat = n + 1 := by omega
  have hfuel0 : ((0 : Int) + 1).toNat = 1 := by omega
  refine ⟨?_, ?_, ?_⟩
  · simp only [apiFetch, hfuel]
    exact loopGo_attempts_le _ _ _ _ _ _ _
  · simp only [apiFetch, hfuel0]
    have h1 := loopGo_attempts_le (apiBase ++ path) script timeout retryDelay 1 0 Option.none
    have h2 := loopGo_attempts_pos (apiBase ++ path) script timeout retryDelay 1 0 Option.none (by omega)
    omega
  · intro N rs rok dd hfail hsN hok hparse hNn
    simp only [apiFetch, hfuel]
    have hrun := loopGo_retryable_run (apiBase ++ path) script timeout retryDelay N
      (fun i => attemptError (apiBase ++ path) (rs i)) (n + 1) 0 Option.none (by omega)
      (fun i hi => by
        have hf := hfail i hi
        rw [Nat.zero_add, hf.1]
        exact ⟨runAttempt_response_not_ok _ _ hf.2.1,
          attemptError_retryable _ _ (by omega)⟩)
    have hsucc : (runAttempt (apiBase ++ path) (script N)).result = .success dd := by
      rw [hsN]
      simp [runAttempt, hok, hparse]
    simp only [Nat.zero_add] at hrun
    have hrest := loopGo_success_step (apiBase ++ path) script timeout retryDelay
      (n + 1 - N) N Option.none dd hsucc (by omega)
    refine ⟨?_, ?_, ?_⟩
    · rw [hrun.1, hrest]
    · rw [hrun.2.1, hrest]
    · rw [hrun.2.2, hrest]
      simp

/-- Witness for C1: two 500 responses then success, with `retries = 3`. -/
theorem apiFetch_retry_schedule_witness :
    (apiFetch "/logs" hdrNone "k" 30000 ((3 : Nat) : Int) 1000 scriptA).exec.outcome
        = .ok (.json (.obj [("ok", .bool true)]))
    ∧ (apiFetch "/logs" hdrNone "k" 30000 ((3 : Nat) : Int) 1000 scriptA).exec.attempts = 3
    ∧ (apiFetch "/logs" hdrNone "k" 30000 ((3 : Nat) : Int) 1000 scriptA).exec.delays = [1000, 2000]
    ∧ (apiFetch "/logs" hdrNone "k" 30000 (0 : Int) 1000 scriptA).exec.attempts = 1 := by
  have h := (apiFetch_retry_schedule "/logs" hdrNone "k" 30000 1000 3 scriptA).2.2
    2 (fun _ => resp500) okJson (.json (.obj [("ok", .bool true)]))
    (fun i hi => ⟨by simp [scriptA, hi], rfl, rfl⟩) rfl rfl rfl (by omega)
  have h0 := (apiFetch_retry_schedule "/logs" hdrNone "k" 30000 1000 3 scriptA).2.1
  refine ⟨h.1, h.2.1, ?_, h0⟩
  rw [h.2.2]
  rfl

/-- Claim C2: an attempt cancelled by its local timeout timer is never
retried: after any run of retryable failures, the aborted attempt terminates
the call at once with the timeout error (no further attempt, no further
delay), and that error message names (contains) the configured timeout value
in milliseconds. -/
theorem apiFetch_timeout_terminal (path : String) (hs : String → Option String)
    (key : String) (timeout retryDelay n k : Nat) (script : Nat → FetchOutcome)
    (es : Nat → JsError)
    (hfail : ∀ i, i < k → (runAttempt (apiBase ++ path) (script i)).result = .failure (es i)
        ∧ (es i).name ≠ "AbortError" ∧ isClientError (es i) = false)
    (habort : script k = .abort) (hk : k ≤ n) :
    (apiFetch path hs key timeout (n : Int) retryDelay script).exec.outcome
        = .error (.error (timeoutError timeout))
    ∧ (apiFetch path hs key timeout (n : Int) retryDelay script).exec.attempts = k + 1
    ∧ (apiFetch path hs key timeout (n : Int) retryDelay script).exec.delays
        = (List.range k).map (fun i => retryDelay * (i + 1))
    ∧ (timeoutError timeout).message
        = .fromText ("Request timeout after " ++ toString timeout ++ "ms")
    ∧ (toString timeout).data
        <:+: ("Request timeout after " ++ toString timeout ++ "ms").data := by
  have hfuel : ((n : Int) + 1).toNat = n + 1 := by omega
  simp only [apiFetch, hfuel]
  have hrun := loopGo_retryable_run (apiBase ++ path) script timeout retryDelay k
    es (n + 1) 0 Option.none (by omega)
    (fun i hi => by rw [Nat.zero_add]; exact hfail i hi)
  simp only [Nat.zero_add] at hrun
  have habrt : (runAttempt (apiBase ++ path) (script k)).result = .failure abortError := by
    rw [habort]; rfl
  have hrest := loopGo_abort_step (apiBase ++ path) script timeout retryDelay
    (n + 1 - k) k Option.none abortError habrt rfl (by omega)
  refine ⟨?_, ?_, ?_, rfl, ?_⟩
  · rw [hrun.1, hrest]
  · rw [hrun.2.1, hrest]
  · rw [hrun.2.2, hrest]
    simp
  · refine ⟨"Request timeout after ".data, "ms".data, ?_⟩
    simp [String.data_append]

/-- Witness for C2: the first attempt aborts while `retries = 2`. -/
theorem apiFetch_timeout_terminal_witness :
    (apiFetch "/logs" hdrNone "k" 5000 (2 : Int) 1000 scriptAbort).exec.outcome
        = .error (.error (timeoutError 5000))
    ∧ (apiFetch "/logs" hdrNone "k" 5000 (2 : Int) 1000 scriptAbort).exec.attempts = 1
    ∧ (toString 5000).data <:+: ("Request timeout after " ++ toString 5000 ++ "ms").data := by
  have h := apiFetch_timeout_terminal "/logs" hdrNone "k" 5000 1000 2 0 scriptAbort
    (fun _ => abortError) (fun i hi => absurd hi (by omega)) rfl (by omega)
  exact ⟨h.1, h.2.1, h.2.2.2.2⟩

/-- Claim C3: a response whose status lies in [400,500) (and whose body
decodes) terminates the call on that first attempt regardless of `retries`:
exactly one attempt is made, and the constructed HTTP error is rethrown
as-is, carrying the status code of the response. -/
theorem apiFetch_client_error_single_attempt (path : String) (hs : String → Option String)
    (key : String) (timeout retryDelay : Nat) (retries : Int)
    (script : Nat → FetchOutcome) (r : Response) (d : ParsedData)
    (hret : 0 ≤ retries) (hs0 : script 0 = .response r) (hok : r.ok = false)
    (hparse : parseBody r = .ok d) (h4 : 400 ≤ r.status) (h5 : r.status < 500) :
    (apiFetch path hs key timeout retries retryDelay script).exec.outcome
        = .error (.error (httpError (apiBase ++ path) r d))
    ∧ (apiFetch path hs key timeout retries retryDelay script).exec.attempts = 1
    ∧ (apiFetch path hs key timeout retries retryDelay script).exec.delays = []
    ∧ (httpError (apiBase ++ path) r d).status = some r.status := by
  have hres : (runAttempt (apiBase ++ path) (script 0)).result
      = .failure (httpError (apiBase ++ path) r d) := by
    rw [hs0]
    simp [runAttempt, hparse, hok]
  have hn : (httpError (apiBase ++ path) r d).name ≠ "AbortError" := by
    simp [httpError]
  have hc : isClientError (httpError (apiBase ++ path) r d) = true := by
    simp only [isClientError, httpError]
    simp [h4, h5]
  have hstep := loopGo_client_step (apiBase ++ path) script timeout retryDelay
    (retries + 1).toNat 0 Option.none (httpError (apiBase ++ path) r d)
    hres hn hc (by omega)
  simp only [apiFetch, hstep]
  simp [httpError]

/-- Witness for C3: a 404 response with `retries = 5`. -/
theorem apiFetch_client_error_witness :
    (apiFetch "/logs" hdrNone "k" 30000 (5 : Int) 1000 script404).exec.attempts = 1
    ∧ (httpError (apiBase ++ "/logs") resp404
        (.json (.obj [("message", .str "missing")]))).status = some 404 := by
  have h := apiFetch_client_error_single_attempt "/logs" hdrNone "k" 30000 1000 5 script404
    resp404 (.json (.obj [("message", .str "missing")]))
    (by omega) rfl rfl rfl (by decide) (by decide)
  exact ⟨h.2.1, h.2.2.2⟩

/-- Counterexample for C4 as stated: the first attempt's body fails to
decode, yet with `retries = 1` the call is retried and returns the second
attempt's success payload after two attempts — the parse failure was not
terminal for the call. -/
theorem apiFetch_parse_retry_counterexample :
    parseBody respBadParse = .error "Unexpected end of JSON input"
    ∧ scriptC4 0 = .response respBadParse
    ∧ (apiFetch "/logs" hdrNone "k" 30000 (1 : Int) 1000 scriptC4).exec.outcome
        = .ok (.json (.obj [("ok", .bool true)]))
    ∧ (apiFetch "/logs" hdrNone "k" 30000 (1 : Int) 1000 scriptC4).exec.attempts = 2 := by
  exact ⟨rfl, rfl, rfl, rfl⟩

/-- Claim C4, amended: a body-decode failure is surfaced as an error whose
message wraps the original parse error message and which carries no status;
because it has no status it is treated like a network-level failure, so it
IS retried when attempts remain: with `retries = 0` it surfaces after one
attempt, and with `retries >= 1` a second attempt is made after the backoff
delay `retryDelay * 1`. -/
theorem apiFetch_parse_failure_retryable (path : String) (hs : String → Option String)
    (key : String) (timeout retryDelay : Nat) (retries : Int)
    (script : Nat → FetchOutcome) (r : Response)
    (hs0 : script 0 = .response r)
    (hct : jsIncludes r.contentType "application/json" = true)
    (hjb : r.jsonBody = Option.none) :
    (parseFailError r.parseErrMsg).message
        = .fromText ("Failed to parse response: " ++ r.parseErrMsg)
    ∧ (parseFailError r.parseErrMsg).status = Option.none
    ∧ (retries = 0 →
        (apiFetch path hs key timeout retries retryDelay script).exec.outcome
            = .error (.error (parseFailError r.parseErrMsg))
        ∧ (apiFetch path hs key timeout retries retryDelay script).exec.attempts = 1)
    ∧ (1 ≤ retries →
        2 ≤ (apiFetch path hs key timeout retries retryDelay script).exec.attempts
        ∧ (apiFetch path hs key timeout retries retryDelay script).exec.delays.head?
            = some (retryDelay * 1)) := by
  have hparse : parseBody r = .error r.parseErrMsg := by
    simp [parseBody, hct, hjb]
  have hres : (runAttempt (apiBase ++ path) (script 0)).result
      = .failure (parseFailError r.parseErrMsg) := by
    rw [hs0]
    simp [runAttempt, hparse]
  have hn : (parseFailError r.parseErrMsg).name ≠ "AbortError" := by
    simp [parseFailError]
  have hc : isClientError (parseFailError r.parseErrMsg) = false := by
    simp [isClientError, parseFailError]
  refine ⟨rfl, rfl, ?_, ?_⟩
  · intro h0
    subst h0
    have hstep := loopGo_retry_step (apiBase ++ path) script timeout retryDelay
      0 0 Option.none (parseFailError r.parseErrMsg) hres hn hc
    have hfuel : ((0 : Int) + 1).toNat = 0 + 1 := by omega
    simp only [apiFetch, hfuel, hstep]
    simp [loopGo, thrownOf]
  · intro h1
    obtain ⟨f, hfuel⟩ : ∃ f, (retries + 1).toNat = (f + 1) + 1 :=
      ⟨(retries + 1).toNat - 2, by omega⟩
    have hstep := loopGo_retry_step (apiBase ++ path) script timeout retryDelay
      (f + 1) 0 Option.none (parseFailError r.parseErrMsg) hres hn hc
    have hpos := loopGo_attempts_pos (apiBase ++ path) script timeout retryDelay
      (f + 1) 1 (some (parseFailError r.parseErrMsg)) (by omega)
    simp only [apiFetch, hfuel, hstep]
    constructor
    · simp
      omega
    · simp

/-- Witness for C4 (amended): the bad-parse response with `retries = 0`
surfaces after one attempt; with `retries = 1` a retry happens after the
first backoff delay. -/
theorem apiFetch_parse_failure_retryable_witness :
    (apiFetch "/x" hdrNone "k" 30000 (0 : Int) 1000
        (fun _ => .response respBadParse)).exec.attempts = 1
    ∧ (apiFetch "/x" hdrNone "k" 30000 (1 : Int) 1000 scriptC4).exec.delays.head?
        = some (1000 * 1) := by
  have h0 := apiFetch_parse_failure_retryable "/x" hdrNone "k" 30000 1000 0
    (fun _ => .response respBadParse) respBadParse rfl (by decide) rfl
  have h1 := apiFetch_parse_failure_retryable "/x" hdrNone "k" 30000 1000 1
    scriptC4 respBadParse rfl (by decide) rfl
  exact ⟨(h0.2.2.1 rfl).2, (h1.2.2.2 (by omega)).2⟩

/-- Claim C5: when all `retries + 1` attempts fail with retryable errors
(no abort, no 4xx status), the error raised to the caller is exactly the
error of the last attempt; the executor never swallows a terminal failure. -/
theorem apiFetch_last_error_raised (path : String) (hs : String → Option String)
    (key : String) (timeout retryDelay n : Nat) (script : Nat → FetchOutcome)
    (es : Nat → JsError)
    (hfail : ∀ i, i ≤ n → (runAttempt (apiBase ++ path) (script i)).result = .failure (es i)
        ∧ (es i).name ≠ "AbortError" ∧ isClientError (es i) = false) :
    (apiFetch path hs key timeout (n : Int) retryDelay script).exec.outcome
        = .error (.error (es n))
    ∧ (apiFetch path hs key timeout (n : Int) retryDelay script).exec.attempts = n + 1 := by
  have hfuel : ((n : Int) + 1).toNat = n + 1 := by omega
  simp only [apiFetch, hfuel]
  have hrun := loopGo_retryable_run (apiBase ++ path) script timeout retryDelay n
    es (n + 1) 0 Option.none (by omega)
    (fun i hi => by rw [Nat.zero_add]; exact hfail i (by omega))
  simp only [Nat.zero_add] at hrun
  have hlast := hfail n (by omega)
  have hstep := loopGo_retry_step (apiBase ++ path) script timeout retryDelay
    0 n Option.none (es n) hlast.1 hlast.2.1 hlast.2.2
  have hzero : loopGo (apiBase ++ path) script timeout retryDelay 0 (n + 1) (some (es n))
      = { outcome := .error (.error (es n)), attempts := 0, delays := [], timers := [] } := rfl
  have hn1 : n + 1 - n = 0 + 1 := by omega
  rw [hrun.1, hrun.2.1]
  rw [hn1, hstep, hzero]
  exact ⟨rfl, rfl⟩

/-- Witness for C5: both attempts (retries = 1) fail with the 500 error. -/
theorem apiFetch_last_error_raised_witness :
    (apiFetch "/logs" hdrNone "k" 30000 (1 : Int) 1000 (fun _ => .response resp500)).exec.outcome
        = .error (.error (attemptError (apiBase ++ "/logs") resp500))
    ∧ (apiFetch "/logs" hdrNone "k" 30000 (1 : Int) 1000 (fun _ => .response resp500)).exec.attempts
        = 2 := by
  have h := apiFetch_last_error_raised "/logs" hdrNone "k" 30000 1000 1
    (fun _ => .response resp500) (fun _ => attemptError (apiBase ++ "/logs") resp500)
    (fun i _ => ⟨runAttempt_response_not_ok _ _ rfl,
      attemptError_retryable _ _ (by decide)⟩)
  exact h

/-- Claim C6: for a non-ok response the error message is chosen in priority
order: the parsed body `message` field, else its `error` field, else the raw
parsed body, else the protocol status text, else the string `HTTP <code>`;
the error carries status code, status text, parsed body and resolved URL;
in particular a status-422 JSON response with body message `bad input`
surfaces the message `bad input`. -/
theorem apiFetch_error_message_priority :
    (∀ (u : String) (r : Response) (d : ParsedData),
      (httpError u r d).message = errorMessage d r.statusText r.status
      ∧ (httpError u r d).status = some r.status
      ∧ (httpError u r d).statusText = some r.statusText
      ∧ (httpError u r d).data = some d
      ∧ (httpError u r d).url = some u)
    ∧ (∀ (d : ParsedData) (st : String) (c : Nat),
      ((msgOfField d "message").truthy = true →
        errorMessage d st c = msgOfField d "message")
      ∧ ((msgOfField d "message").truthy = false → (msgOfField d "error").truthy = true →
        errorMessage d st c = msgOfField d "error")
      ∧ ((msgOfField d "message").truthy = false → (msgOfField d "error").truthy = false →
          d.truthy = true → errorMessage d st c = .fromData d)
      ∧ ((msgOfField d "message").truthy = false → (msgOfField d "error").truthy = false →
          d.truthy = false → st ≠ "" → errorMessage d st c = .fromText st)
      ∧ ((msgOfField d "message").truthy = false → (msgOfField d "error").truthy = false →
          d.truthy = false → st = "" →
          errorMessage d st c = .fromText ("HTTP " ++ toString c)))
    ∧ ((apiFetch "/logs" hdrNone "k" 30000 (0 : Int) 1000 script422).exec.outcome
        = .error (.error (httpError (apiBase ++ "/logs") resp422
            (.json (.obj [("message", .str "bad input")]))))
      ∧ (httpError (apiBase ++ "/logs") resp422
            (.json (.obj [("message", .str "bad input")]))).message
          = .fromJson (.str "bad input")) := by
  refine ⟨fun u r d => ⟨rfl, rfl, rfl, rfl, rfl⟩, fun d st c => ?_, rfl, rfl⟩
  refine ⟨?_, ?_, ?_, ?_, ?_⟩
  · intro h1
    simp only [errorMessage, jsOr, h1]
    simp
  · intro h1 h2
    simp only [errorMessage, jsOr, h1, h2]
    simp
  · intro h1 h2 h3
    simp only [errorMessage, jsOr, h1, h2]
    simp only [MsgVal.truthy]
    simp [h3]
  · intro h1 h2 h3 h4
    simp only [errorMessage, jsOr, h1, h2]
    simp only [MsgVal.truthy]
    simp [h3, String.isEmpty_iff, h4]
  · intro h1 h2 h3 h4
    subst h4
    simp only [errorMessage, jsOr, h1, h2]
    simp only [MsgVal.truthy]
    simp [h3]
    intro h
    exact absurd h (by decide)

/-- Witness for C6: each step of the priority chain at a concrete value. -/
theorem apiFetch_error_message_priority_witness :
    errorMessage (.json (.obj [("message", .str "m")])) "ST" 500 = .fromJson (.str "m")
    ∧ errorMessage (.json (.obj [("error", .str "oops")])) "ST" 500 = .fromJson (.str "oops")
    ∧ errorMessage (.text "hello") "ST" 500 = .fromData (.text "hello")
    ∧ errorMessage (.text "") "ST" 500 = .fromText "ST"
    ∧ errorMessage (.text "") "" 500 = .fromText ("HTTP " ++ toString 500) := by
  have h := (apiFetch_error_message_priority).2.1
  exact ⟨(h _ _ _).1 (by decide),
    (h _ _ _).2.1 (by decide) (by decide),
    (h _ _ _).2.2.1 (by decide) (by decide) (by decide),
    (h _ _ _).2.2.2.1 (by decide) (by decide) (by decide) (by decide),
    (h _ _ _).2.2.2.2 (by decide) (by decide) (by decide) rfl⟩

/-- Claim C7: a successful response is parsed by declared content type: a
JSON content type yields the structured value, a text content type
(including `text/csv`, returned unmodified) yields the string, any other
content type yields blob-style then buffer-style extraction, else JS null;
and the parsed data is returned immediately after one attempt. -/
theorem apiFetch_parse_by_content_type :
    (∀ (r : Response) (j : Json),
      jsIncludes r.contentType "application/json" = true → r.jsonBody = some j →
      parseBody r = .ok (.json j))
    ∧ (∀ r : Response,
      jsIncludes r.contentType "application/json" = false →
      jsIncludes r.contentType "text/" = true →
      parseBody r = .ok (.text r.textBody))
    ∧ (∀ (r : Response) (b : List Nat),
      jsIncludes r.contentType "application/json" = false →
      jsIncludes r.contentType "text/" = false →
      r.blobBody = some b →
      parseBody r = .ok (.blob b))
    ∧ (∀ (r : Response) (b : List Nat),
      jsIncludes r.contentType "application/json" = false →
      jsIncludes r.contentType "text/" = false →
      r.blobBody = Option.none → r.bufferBody = some b →
      parseBody r = .ok (.buffer b))
    ∧ (∀ r : Response,
      jsIncludes r.contentType "application/json" = false →
      jsIncludes r.contentType "text/" = false →
      r.blobBody = Option.none → r.bufferBody = Option.none →
      parseBody r = .ok .jsNull)
    ∧ (∀ r : Response, r.contentType = "text/csv" → parseBody r = .ok (.text r.textBody))
    ∧ (∀ (path : String) (hs : String → Option String) (key : String)
        (timeout retryDelay : Nat) (retries : Int)
        (script : Nat → FetchOutcome) (r : Response) (d : ParsedData),
      0 ≤ retries → script 0 = .response r → r.ok = true → parseBody r = .ok d →
      (apiFetch path hs key timeout retries retryDelay script).exec.outcome = .ok d
      ∧ (apiFetch path hs key timeout retries retryDelay script).exec.attempts = 1
      ∧ (apiFetch path hs key timeout retries retryDelay script).exec.delays = []) := by
  refine ⟨?_, ?_, ?_, ?_, ?_, ?_, ?_⟩
  · intro r j h1 h2
    simp [parseBody, h1, h2]
  · intro r h1 h2
    simp [parseBody, h1, h2]
  · intro r b h1 h2 h3
    simp [parseBody, h1, h2, h3]
  · intro r b h1 h2 h3 h4
    simp [parseBody, h1, h2, h3, h4]
  · intro r h1 h2 h3 h4
    simp [parseBody, h1, h2, h3, h4]
  · intro r hct
    have h1 : jsIncludes r.contentType "application/json" = false := by
      rw [hct]; decide
    have h2 : jsIncludes r.contentType "text/" = true := by
      rw [hct]; decide
    simp [parseBody, h1, h2]
  · intro path hs key timeout retryDelay retries script r d hret hs0 hok hparse
    have hres : (runAttempt (apiBase ++ path) (script 0)).result = .success d := by
      rw [hs0]
      simp [runAttempt, hok, hparse]
    have hstep := loopGo_success_step (apiBase ++ path) script timeout retryDelay
      (retries + 1).toNat 0 Option.none d hres (by omega)
    simp only [apiFetch, hstep]
    simp

/-- Witness for C7: concrete JSON, CSV and blob responses, and the
immediate return of the CSV payload after one attempt. -/
theorem apiFetch_parse_by_content_type_witness :
    parseBody okJson = .ok (.json (.obj [("ok", .bool true)]))
    ∧ parseBody respCsv = .ok (.text "a,b")
    ∧ parseBody respBin = .ok (.blob [1, 2, 3])
    ∧ (apiFetch "/logs/export" hdrNone "k" 30000 (2 : Int) 1000 scriptCsv).exec.outcome
        = .ok (.text "a,b")
    ∧ (apiFetch "/logs/export" hdrNone "k" 30000 (2 : Int) 1000 scriptCsv).exec.attempts = 1 := by
  have h := apiFetch_parse_by_content_type
  have h1 := h.1 okJson (.obj [("ok", .bool true)]) (by decide) rfl
  have hcsv := h.2.2.2.2.2.1 respCsv rfl
  have hbin := h.2.2.1 respBin [1, 2, 3] (by decide) (by decide) rfl
  have himm := h.2.2.2.2.2.2 "/logs/export" hdrNone "k" 30000 1000 2 scriptCsv respCsv
    (.text respCsv.textBody) (by omega) rfl rfl hcsv
  exact ⟨h1, hcsv, hbin, himm.1, himm.2.1⟩

/-- Claim C8: the headers sent on each attempt are the caller headers merged
with the injected ones: `X-API-KEY` is always forcibly set to the credential
(overriding any caller value), the default content type `application/json`
is applied only when the caller supplied no (truthy) `Content-Type`, and all
other caller headers are forwarded verbatim. -/
theorem apiFetch_headers_merge (path : String) (hs : String → Option String)
    (key : String) (timeout : Nat) (retries : Int) (retryDelay : Nat)
    (script : Nat → FetchOutcome) :
    (apiFetch path hs key timeout retries retryDelay script).headers "X-API-KEY" = some key
    ∧ (hs "Content-Type" = Option.none →
        (apiFetch path hs key timeout retries retryDelay script).headers "Content-Type"
          = some "application/json")
    ∧ (∀ v, hs "Content-Type" = some v → v ≠ "" →
        (apiFetch path hs key timeout retries retryDelay script).headers "Content-Type"
          = some v)
    ∧ (∀ k, k ≠ "X-API-KEY" → k ≠ "Content-Type" →
        (apiFetch path hs key timeout retries retryDelay script).headers k = hs k) := by
  refine ⟨?_, ?_, ?_, ?_⟩
  · simp [apiFetch, mergeHeaders]
  · intro h
    simp [apiFetch, mergeHeaders, h]
  · intro v hv hne
    simp [apiFetch, mergeHeaders, hv, hne]
  · intro k h1 h2
    simp [apiFetch, mergeHeaders, h1, h2]

/-- Witness for C8: custom caller headers and the no-headers case. -/
theorem apiFetch_headers_merge_witness :
    (apiFetch "/logs" hdrCustom "secret" 30000 (0 : Int) 1000 scriptOk).headers "X-API-KEY"
        = some "secret"
    ∧ (apiFetch "/logs" hdrCustom "secret" 30000 (0 : Int) 1000 scriptOk).headers "Content-Type"
        = some "text/plain"
    ∧ (apiFetch "/logs" hdrCustom "secret" 30000 (0 : Int) 1000 scriptOk).headers "X-Custom"
        = some "1"
    ∧ (apiFetch "/logs" hdrNone "secret" 30000 (0 : Int) 1000 scriptOk).headers "Content-Type"
        = some "application/json" := by
  have h := apiFetch_headers_merge "/logs" hdrCustom "secret" 30000 0 1000 scriptOk
  have h2 := apiFetch_headers_merge "/logs" hdrNone "secret" 30000 0 1000 scriptOk
  refine ⟨h.1, h.2.2.1 "text/plain" rfl (by decide), ?_, h2.2.1 rfl⟩
  have h3 := h.2.2.2 "X-Custom" (by decide) (by decide)
  rw [h3]
  rfl

/-- Claim C9: every attempt starts a timeout timer (one timer fate is
recorded per attempt), and whenever an attempt receives a response (success
or HTTP error status) its timer is cleared immediately. -/
theorem apiFetch_timer_cleared_on_response (path : String) (hs : String → Option String)
    (key : String) (timeout : Nat) (retries : Int) (retryDelay : Nat)
    (script : Nat → FetchOutcome) :
    (apiFetch path hs key timeout retries retryDelay script).exec.timers.length
        = (apiFetch path hs key timeout retries retryDelay script).exec.attempts
    ∧ (∀ (i : Nat) (r : Response), script i = .response r →
        i < (apiFetch path hs key timeout retries retryDelay script).exec.attempts →
        (apiFetch path hs key timeout retries retryDelay script).exec.timers.get? i
          = some TimerFate.cleared) := by
  have h := loopGo_timers (apiBase ++ path) script timeout retryDelay
    (retries + 1).toNat 0 Option.none
  refine ⟨h.1, ?_⟩
  intro i r hresp hlt
  have h2 := h.2 i hlt
  rw [Nat.zero_add] at h2
  show (loopGo (apiBase ++ path) script timeout retryDelay
    (retries + 1).toNat 0 Option.none).timers.get? i = some TimerFate.cleared
  rw [h2, hresp, runAttempt_response_fate]

/-- Witness for C9: both attempts of a two-attempt call receive responses
and both timers are cleared. -/
theorem apiFetch_timer_cleared_witness :
    (apiFetch "/logs" hdrNone "k" 30000 (1 : Int) 1000
        (fun _ => .response resp500)).exec.timers.length
      = (apiFetch "/logs" hdrNone "k" 30000 (1 : Int) 1000
        (fun _ => .response resp500)).exec.attempts
    ∧ (apiFetch "/logs" hdrNone "k" 30000 (1 : Int) 1000
        (fun _ => .response resp500)).exec.timers.get? 0 = some TimerFate.cleared := by
  have h := apiFetch_timer_cleared_on_response "/logs" hdrNone "k" 30000 1 1000
    (fun _ => .response resp500)
  exact ⟨h.1, h.2 0 resp500 rfl (by decide)⟩

/-- Claim C10: with a negative `retries` value the loop body never runs:
zero network attempts are made and the call throws the undefined initial
value of `lastError` rather than a structured request error. -/
theorem apiFetch_negative_retries (path : String) (hs : String → Option String)
    (key : String) (timeout : Nat) (retries : Int) (retryDelay : Nat)
    (script : Nat → FetchOutcome) (hneg : retries < 0) :
    (apiFetch path hs key timeout retries retryDelay script).exec.outcome
        = .error Thrown.undefined
    ∧ (apiFetch path hs key timeout retries retryDelay script).exec.attempts = 0
    ∧ (apiFetch path hs key timeout retries retryDelay script).exec.delays = []
    ∧ (apiFetch path hs key timeout retries retryDelay script).exec.timers = [] := by
  have hfuel : (retries + 1).toNat = 0 := by omega
  simp only [apiFetch, hfuel]
  simp [loopGo, thrownOf]

/-- Witness for C10: `retries = -1` makes zero attempts and throws the
undefined `lastError`. -/
theorem apiFetch_negative_retries_witness :
    (apiFetch "/logs" hdrNone "k" 30000 (-1 : Int) 1000 scriptOk).exec.outcome
        = .error Thrown.undefined
    ∧ (apiFetch "/logs" hdrNone "k" 30000 (-1 : Int) 1000 scriptOk).exec.attempts = 0 := by
  have h := apiFetch_negative_retries "/logs" hdrNone "k" 30000 (-1) 1000 scriptOk (by omega)
  exact ⟨h.1, h.2.1⟩

end LogClient
